import Mathlib

/-!
Shallow embedding of the maxapi gateway core (Go) and proofs about the
behaviour of its operations: the session client's request/close paths,
sequence assignment, notification classification, webhook dispatch
filtering, the supervised reconnect loop, the upload helpers, message
history persistence, dialog-id derivation, and logout.

Go `map[string]interface{}` payloads are modelled by `JValue`/`JObj`;
machine integers by `Int`/`Nat` with explicit wrapping where the source
uses fixed-width arithmetic.
-/

namespace MaxApi

/-- JSON-like dynamic value, the model of Go `interface{}` payload values.
Numbers are modelled as `Int` (the payload fields the verified code
inspects are integral ids and counters). -/
inductive JValue where
  | jnull : JValue
  | jbool : Bool → JValue
  | jnum : Int → JValue
  | jstr : String → JValue
  | jarr : List JValue → JValue
  | jobj : List (String × JValue) → JValue

/-- Model of Go `map[string]interface{}`: an association list with the
first binding of a key the visible one. -/
abbrev JObj := List (String × JValue)

/-- Key lookup in a payload object, Go `payload[k]` (missing key gives
the `ok=false` branch of a type assertion, modelled as `none`). -/
def jLookup (obj : JObj) (k : String) : Option JValue :=
  (obj.find? (fun p => p.1 == k)).map (fun p => p.2)

/-- Go type assertion `payload[k].(string)`. -/
def jGetStr (obj : JObj) (k : String) : Option String :=
  match jLookup obj k with
  | some (JValue.jstr s) => some s
  | _ => none

/-- Go type assertion `payload[k].(map[string]interface{})`. -/
def jGetObj (obj : JObj) (k : String) : Option JObj :=
  match jLookup obj k with
  | some (JValue.jobj m) => some m
  | _ => none

/-- Go type assertion `payload[k].(float64)` for integral ids. -/
def jGetNum (obj : JObj) (k : String) : Option Int :=
  match jLookup obj k with
  | some (JValue.jnum n) => some n
  | _ => none

/-- Go type assertion `payload[k].([]interface{})`. -/
def jGetArr (obj : JObj) (k : String) : Option (List JValue) :=
  match jLookup obj k with
  | some (JValue.jarr xs) => some xs
  | _ => none

/-! ## Opcodes (maxclient/opcodes.go) -/

/-- Opcode `OpPing = 1`. -/
def OpPing : Int := 1

/-- Opcode `OpReconnect = 3`. -/
def OpReconnect : Int := 3

/-- Opcode `OpLogout = 20`. -/
def OpLogout : Int := 20

/-- Opcode `OpPhotoUpload = 80`. -/
def OpPhotoUpload : Int := 80

/-- Opcode `OpVideoUpload = 82`. -/
def OpVideoUpload : Int := 82

/-- Opcode `OpFileUpload = 87`. -/
def OpFileUpload : Int := 87

/-- Opcode `OpNotifMessage = 128`. -/
def OpNotifMessage : Int := 128

/-- Opcode `OpNotifTyping = 129`. -/
def OpNotifTyping : Int := 129

/-- Opcode `OpNotifMark = 130`. -/
def OpNotifMark : Int := 130

/-- Opcode `OpNotifContact = 131`. -/
def OpNotifContact : Int := 131

/-- Opcode `OpNotifPresence = 132`. -/
def OpNotifPresence : Int := 132

/-- Opcode `OpNotifChat = 135`. -/
def OpNotifChat : Int := 135

/-- Opcode `OpNotifAttach = 136`. -/
def OpNotifAttach : Int := 136

/-- Opcode `OpNotifMsgReactionsChanged = 155`. -/
def OpNotifMsgReactionsChanged : Int := 155

/-- Message status constant `MessageStatusEdited = "EDITED"`. -/
def MessageStatusEdited : String := "EDITED"

/-- Message status constant `MessageStatusRemoved = "REMOVED"`. -/
def MessageStatusRemoved : String := "REMOVED"

/-! ## Sequence assignment (maxclient nextSeq)

`Client.seq` is an `int32` bumped by `atomic.AddInt32(&c.seq, 1)`;
`nextSeq` returns `int(...)` of the incremented counter, which on a
64-bit platform preserves the (possibly wrapped) int32 value. -/

/-- Two's-complement reduction of an integer into the `int32` range
`[-2147483648, 2147483648)`, the effect of Go's wrapping `int32` add. -/
def wrapInt32 (n : Int) : Int :=
  (n + 2147483648) % 4294967296 - 2147483648

/-- Embedding of `nextSeq`: increment the `int32` counter with wraparound
and return the new value (new counter state, returned seq). -/
def nextSeq (seq : Int) : Int × Int :=
  let s := wrapInt32 (seq + 1)
  (s, s)

/-- The seq returned by the k-th `nextSeq` call on a client whose counter
started at the zero value set by `NewClient` (`seqAfterCalls 0 = 0` is the
initial counter, `seqAfterCalls k` for `k ≥ 1` is call k's value). -/
def seqAfterCalls : Nat → Int
  | 0 => 0
  | k + 1 => (nextSeq (seqAfterCalls k)).1

/-! ## Notification classification (maxclient handleNotification) -/

/-- Embedding of `determineMessageEventType(payload)`: prefer the nested
`message` object, default to the payload itself, read its `status` string
(empty when absent or non-string) and map `EDITED`/`REMOVED`/otherwise. -/
def determineMessageEventType (payload : JObj) : String :=
  let message :=
    match jGetObj payload "message" with
    | some m => m
    | none => payload
  let status := (jGetStr message "status").getD ""
  if status = MessageStatusEdited then "MessageEdit"
  else if status = MessageStatusRemoved then "MessageDelete"
  else "Message"

/-- Where `handleNotification` sends a server-initiated frame: either to
the upload-waiter path (`handleFileAttachNotification`) or to the event
handler with a classified event type. -/
inductive NotifRoute where
  | uploadWaiterPath : NotifRoute
  | dispatched : String → NotifRoute
deriving DecidableEq

/-- Embedding of `handleNotification(resp)`: `OpNotifAttach` goes to the
upload-waiter path; every other opcode builds an event whose type is given
by the dispatch switch (default `Unknown`) and hands it to the handler. -/
def handleNotification (opcode : Int) (payload : JObj) : NotifRoute :=
  if opcode = OpNotifAttach then NotifRoute.uploadWaiterPath
  else
    NotifRoute.dispatched <|
      if opcode = OpNotifMessage then determineMessageEventType payload
      else if opcode = OpNotifMark then "ReadReceipt"
      else if opcode = OpNotifChat then "ChatUpdate"
      else if opcode = OpNotifTyping then "Typing"
      else if opcode = OpNotifMsgReactionsChanged then "ReactionChange"
      else if opcode = OpNotifContact then "ContactUpdate"
      else if opcode = OpNotifPresence then "PresenceUpdate"
      else if opcode = OpReconnect then "Disconnected"
      else if opcode = OpLogout then "LoggedOut"
      else "Unknown"

/-- The "message status field" as the claim reads it: the `status` of the
nested `message` object when one is present, of the payload itself
otherwise (stated separately from the code's classifier so the theorem
relates the two). -/
def messageStatusField (payload : JObj) : String :=
  let message :=
    match jGetObj payload "message" with
    | some m => m
    | none => payload
  (jGetStr message "status").getD ""

/-! ## Request path (maxclient sendAndWaitWithTimeout, errors.go) -/

/-- Structured MAX API error (`Error` of errors.go). -/
structure ApiError where
  code : String
  message : String
  title : String
deriving DecidableEq

/-- Embedding of `ParseError(payload)`: an error is reported exactly when
the payload holds a non-empty string under `"error"`; `message` and
`title` default to the empty string when absent or non-string. -/
def ParseError (payload : JObj) : Option ApiError :=
  match jGetStr payload "error" with
  | none => none
  | some errorCode =>
      if errorCode = "" then none
      else
        some { code := errorCode,
               message := (jGetStr payload "message").getD "",
               title := (jGetStr payload "title").getD "" }

/-- Wire response envelope fields the request path inspects. -/
structure Response where
  seq : Int
  opcode : Int
  payload : JObj

/-- Resolution of the response-wait select in `sendAndWaitWithTimeout`:
a channel receive (`none` models the nil delivered by a slot that was
closed when the transport died or `Close` drained it), the `time.After`
timer, or the cancellation context firing. -/
inductive WaitRes where
  | gotResp : Option Response → WaitRes
  | timedOut : WaitRes
  | ctxCancelled : WaitRes

/-- Environment of one `sendAndWaitWithTimeout` call: the connected flag
at entry, the two `json.Marshal` results, whether the connection object
is still present at write time, the `WriteMessage` result, and how the
wait resolves. -/
structure ReqEnv where
  connectedAtCall : Bool
  payloadMarshalOk : Bool
  msgMarshalOk : Bool
  connPresent : Bool
  writeErr : Option String
  wait : WaitRes

/-- Every value `sendAndWaitWithTimeout` can return: the response
payload, a protocol error surfaced from the payload, `ErrNotConnected`,
`ErrTimeout`, a JSON marshal error, or the raw transport write error. -/
inductive ReqOutcome where
  | ok : JObj → ReqOutcome
  | protocolError : JObj → ApiError → ReqOutcome
  | notConnected : ReqOutcome
  | timeout : ReqOutcome
  | marshalFailed : ReqOutcome
  | writeFailed : String → ReqOutcome

/-- Embedding of `sendAndWaitWithTimeout`: guard on the connected flag,
marshal payload and frame, require a live connection object, transmit
(returning the raw write error on failure), then wait for the slot,
timeout, or cancellation; a received response is checked by `ParseError`. -/
def sendAndWaitWithTimeout (env : ReqEnv) : ReqOutcome :=
  if env.connectedAtCall = false then ReqOutcome.notConnected
  else if env.payloadMarshalOk = false then ReqOutcome.marshalFailed
  else if env.msgMarshalOk = false then ReqOutcome.marshalFailed
  else if env.connPresent = false then ReqOutcome.notConnected
  else
    match env.writeErr with
    | some e => ReqOutcome.writeFailed e
    | none =>
        match env.wait with
        | WaitRes.gotResp none => ReqOutcome.notConnected
        | WaitRes.gotResp (some resp) =>
            match ParseError resp.payload with
            | some e => ReqOutcome.protocolError resp.payload e
            | none => ReqOutcome.ok resp.payload
        | WaitRes.timedOut => ReqOutcome.timeout
        | WaitRes.ctxCancelled => ReqOutcome.notConnected

/-- The outcome set the claim names (stated from the claim's words, to be
compared with the code's actual outcomes): the response payload,
NOT_CONNECTED, TIMEOUT, or PROTOCOL_ERROR. -/
def claimedRequestOutcome : ReqOutcome → Bool
  | ReqOutcome.ok _ => true
  | ReqOutcome.protocolError _ _ => true
  | ReqOutcome.notConnected => true
  | ReqOutcome.timeout => true
  | _ => false

/-- Call environment reaching the select: connected at entry, marshals
succeed, connection present, write succeeds. -/
def requestReachesWait (env : ReqEnv) : Prop :=
  env.connectedAtCall = true ∧ env.payloadMarshalOk = true ∧
  env.msgMarshalOk = true ∧ env.connPresent = true ∧ env.writeErr = none

/-- A concrete call environment in which the transport write fails after
the connectivity check: connected, both marshals succeed, the connection
object is present, and `WriteMessage` returns an error. -/
def writeFailEnv : ReqEnv :=
  { connectedAtCall := true, payloadMarshalOk := true, msgMarshalOk := true,
    connPresent := true, writeErr := some "broken pipe",
    wait := WaitRes.timedOut }

/-! ## Close path (maxclient Close) -/

/-- Client connection state the close path manipulates. `pending` lists
the seqs whose one-shot slot is live with an empty channel — callers
blocked in the request select. -/
structure ClientState where
  ctxCancelled : Bool
  isConnected : Bool
  hasConn : Bool
  pending : List Int
deriving DecidableEq

/-- Embedding of `Close()`: cancel the context and set connected=false;
when a connection object exists, also close it and drain every pending
slot by closing its channel. Second component: whether the drain ran. -/
def Close (s : ClientState) : ClientState × Bool :=
  let s1 : ClientState := { s with ctxCancelled := true, isConnected := false }
  if s1.hasConn then
    ({ s1 with hasConn := false, pending := [] }, true)
  else (s1, false)

/-- The select branches a blocked waiter can complete on after `Close`:
its slot channel once the drain has closed it (the receive yields nil)
and the cancelled context's done channel. -/
inductive WaiterBranch where
  | slotDrained : WaiterBranch
  | ctxDone : WaiterBranch
deriving DecidableEq

/-- Whether a waiter branch is receivable after close: the slot branch
only if the drain ran and closed the channel; the done branch always,
since `Close` cancels the context unconditionally. -/
def waiterBranchReady (drained : Bool) : WaiterBranch → Bool
  | WaiterBranch.slotDrained => drained
  | WaiterBranch.ctxDone => true

/-- What the blocked waiter in `sendAndWaitWithTimeout` observes on each
such branch: a closed slot delivers nil, which the select maps to
`ErrNotConnected`; the cancelled context also maps to `ErrNotConnected`. -/
def waiterObserve : WaiterBranch → ReqOutcome
  | WaiterBranch.slotDrained => ReqOutcome.notConnected
  | WaiterBranch.ctxDone => ReqOutcome.notConnected

/-! ## Logout (maxclient/auth.go Logout) -/

/-- Client authentication and identity state touched by `Logout`:
connection state plus `AuthToken`, whether `Me` is non-nil, and
`MaxUserID`. -/
structure AuthState where
  conn : ClientState
  authToken : String
  hasMe : Bool
  maxUserID : Int
deriving DecidableEq

/-- Transport-visible actions of `Logout`. -/
inductive LogoutAction where
  | sendLogout : LogoutAction
  | closeClient : LogoutAction
deriving DecidableEq

/-- Embedding of `Logout()`: when the client is not connected, return nil
immediately with no action and no state change; otherwise send the
LOGOUT opcode (a send error is only logged), clear `AuthToken`, `Me` and
`MaxUserID`, and return the result of `Close`. Result: new state, actions
taken, whether the returned error is nil. -/
def Logout (s : AuthState) (closeReturnsNil : Bool) :
    AuthState × List LogoutAction × Bool :=
  if s.conn.isConnected = false then (s, [], true)
  else
    let s1 : AuthState := { s with authToken := "", hasMe := false, maxUserID := 0 }
    let s2 : AuthState := { s1 with conn := (Close s1.conn).1 }
    (s2, [LogoutAction.sendLogout, LogoutAction.closeClient], closeReturnsNil)

/-! ## Webhook dispatch filter (event_handler.go sendEventWithWebHook) -/

/-- The closed list `supportedEventTypes` of maxclient/messages.go. -/
def supportedEventTypes : List String :=
  ["Message", "MessageEdit", "MessageDelete",
   "ReadReceipt",
   "Connected", "Disconnected", "Reconnecting", "Sync", "LoggedOut",
   "AuthCodeSent",
   "ChatUpdate", "Typing",
   "ReactionChange",
   "ContactUpdate", "PresenceUpdate",
   "FileReady",
   "HistorySync",
   "All"]

/-- Modelled from the spec: the helper `Find(slice, val)` is called by
`checkIfSubscribedToEvent` and `updateAndGetUserSubscriptions` but its
definition is not among the provided sources; per the spec's subscription
check (drop when the kind and `"All"` are both outside the subscription
set) it is the list-membership test. -/
def Find (slice : List String) (val : String) : Bool :=
  slice.contains val

/-- Embedding of `checkIfSubscribedToEvent(subscribedEvents, eventType,
userId)`: false (drop, after a log line keyed by `userId`) exactly when
neither the event type nor `"All"` is in the subscription list. -/
def checkIfSubscribedToEvent (subscribedEvents : List String)
    (eventType : String) (userId : String) : Bool :=
  if !(Find subscribedEvents eventType) && !(Find subscribedEvents "All") then
    false
  else true

/-- Model of Go `strings.Split(s, ",")` on the character list: cut at
every comma, keeping empty fragments (splitting the empty string yields
one empty fragment, as in Go). -/
def splitCommaAux : List Char → List Char → List String
  | [], acc => [String.mk acc.reverse]
  | c :: rest, acc =>
      if c = ',' then String.mk acc.reverse :: splitCommaAux rest []
      else splitCommaAux rest (c :: acc)

/-- Go `strings.Split(s, ",")`. -/
def splitComma (s : String) : List String :=
  splitCommaAux s.toList []

/-- The space characters Go `strings.TrimSpace` removes (the Latin-1
range of `unicode.IsSpace`). -/
def isSpaceChar (c : Char) : Bool :=
  c = ' ' || c = '\t' || c = '\n' || c = '\x0b' || c = '\x0c' || c = '\r' ||
  c = '\u0085' || c = '\u00A0'

/-- Go `strings.TrimSpace`: drop leading and trailing space characters. -/
def trimSpace (s : String) : String :=
  String.mk (((s.toList.dropWhile isSpaceChar).reverse.dropWhile isSpaceChar).reverse)

/-- The subscription-list parsing of `updateAndGetUserSubscriptions`:
split the stored string on commas; a single empty fragment means no
subscriptions; otherwise trim each fragment and keep the non-empty ones
that are supported event types. -/
def parseSubscribedEvents (currentEvents : String) : List String :=
  let eventarray := splitComma currentEvents
  if eventarray.length = 1 && (eventarray.headD "" == "") then []
  else
    (eventarray.map trimSpace).filter
      (fun arg => arg != "" && Find supportedEventTypes arg)

/-- Tenant subscription sources for one dispatch: the identity-cache entry
when present, else the `users` table `events` column, whose read can
fail. -/
structure TenantInfo where
  cached : Bool
  cachedEvents : String
  dbEvents : String
  dbOk : Bool
deriving DecidableEq

/-- Embedding of `updateAndGetUserSubscriptions`: read the events string
from the cache, else from the database (a read error aborts with `none`),
then parse it into the subscription list. -/
def updateAndGetUserSubscriptions (info : TenantInfo) : Option (List String) :=
  if info.cached then some (parseSubscribedEvents info.cachedEvents)
  else if info.dbOk then some (parseSubscribedEvents info.dbEvents)
  else none

/-- The tenant's subscription set as the claim reads it: parsed from the
cache entry when present, otherwise from the tenant catalog row — stated
independently of whether the catalog read succeeds, to compare with the
code's fallible resolution. -/
def tenantSubscriptions (info : TenantInfo) : List String :=
  if info.cached then parseSubscribedEvents info.cachedEvents
  else parseSubscribedEvents info.dbEvents

/-- Environment of one `sendEventWithWebHook` call: subscription sources,
the tenant webhook URL, the postmap `type` entry when it is a string, and
whether `json.Marshal` of the postmap succeeds. -/
structure DispatchEnv where
  info : TenantInfo
  webhookUrl : String
  postmapType : Option String
  marshalOk : Bool
deriving DecidableEq

/-- Outcome of `sendEventWithWebHook`: dropped (no user POST, no global
fanout), or serialized and delivered — with the flag recording whether the
user-webhook POST was made (URL non-empty); global webhook and queue
fanout accompany every delivery. -/
inductive DispatchResult where
  | dropped : DispatchResult
  | delivered : Bool → DispatchResult
deriving DecidableEq

/-- Embedding of `sendEventWithWebHook`: resolve subscriptions (error →
drop), require a string `type` (else drop), apply the subscription check
(false → drop), serialize (error → drop), then send to the user webhook
and fan out to the global webhook and queue. -/
def sendEventWithWebHook (env : DispatchEnv) : DispatchResult :=
  match updateAndGetUserSubscriptions env.info with
  | none => DispatchResult.dropped
  | some subscribedEvents =>
      match env.postmapType with
      | none => DispatchResult.dropped
      | some eventType =>
          if checkIfSubscribedToEvent subscribedEvents eventType "" = false then
            DispatchResult.dropped
          else if env.marshalOk = false then DispatchResult.dropped
          else DispatchResult.delivered (env.webhookUrl != "")

/-- Concrete dispatch environment: the tenant catalog row subscribes to
`Message`, there is no cache entry, and the catalog read fails. -/
def dbFailDispatchEnv : DispatchEnv :=
  { info := { cached := false, cachedEvents := "", dbEvents := "Message",
              dbOk := false },
    webhookUrl := "https://hook.example", postmapType := some "Message",
    marshalOk := true }

/-! ## Supervised reconnect loop (event_handler.go startClient) -/

/-- `maxReconnectAttempts` of `startClient`. -/
def maxReconnectAttempts : Nat := 120

/-- What one iteration of `startClient`'s keep-alive loop observes: a kill
signal, a connected client, or a disconnected client together with whether
the subsequent `ConnectAndSync` succeeds. -/
inductive TickInput where
  | kill : TickInput
  | connectedTick : TickInput
  | disconnectedTick : Bool → TickInput
deriving DecidableEq

/-- Externally visible actions of one loop iteration. -/
inductive SupAction where
  | disconnectClient : SupAction
  | cleanupRegistry : SupAction
  | persistConnected : Nat → SupAction
  | emitDisconnectedMaxAttempts : SupAction
  | emitReconnecting : Nat → Nat → SupAction
  | sleepRetryDelay : SupAction
  | attemptReconnect : SupAction
  | emitSyncReconnect : SupAction
  | exitLoop : SupAction
deriving DecidableEq

/-- Embedding of one iteration of `startClient`'s supervise loop over the
`reconnectAttempts` counter: kill → disconnect, cleanup, persist 0, exit;
connected → reset the counter; disconnected → increment, give up past the
cap (cleanup, Disconnected event, persist 0, exit), else emit
`Reconnecting` on attempt 1 and every 10th, sleep the retry delay and
re-sync — success resets the counter, persists connected=1 and emits the
`Sync` event. -/
def startClientStep (reconnectAttempts : Nat) (t : TickInput) :
    Nat × List SupAction :=
  match t with
  | TickInput.kill =>
      (reconnectAttempts,
       [SupAction.disconnectClient, SupAction.cleanupRegistry,
        SupAction.persistConnected 0, SupAction.exitLoop])
  | TickInput.connectedTick => (0, [])
  | TickInput.disconnectedTick syncOk =>
      let a := reconnectAttempts + 1
      if maxReconnectAttempts < a then
        (a, [SupAction.cleanupRegistry, SupAction.emitDisconnectedMaxAttempts,
             SupAction.persistConnected 0, SupAction.exitLoop])
      else
        let pre :=
          (if a = 1 ∨ a % 10 = 0 then
            [SupAction.emitReconnecting a maxReconnectAttempts]
          else []) ++ [SupAction.sleepRetryDelay, SupAction.attemptReconnect]
        if syncOk then
          (0, pre ++ [SupAction.persistConnected 1, SupAction.emitSyncReconnect])
        else (a, pre)

/-- Counter and exit status after `k` consecutive ticks in which the
client is disconnected and every reconnect fails, from a fresh loop. -/
def superviseFailedTicks : Nat → Nat × Bool
  | 0 => (0, false)
  | k + 1 =>
      let r := superviseFailedTicks k
      if r.2 then r
      else
        let s := startClientStep r.1 (TickInput.disconnectedTick false)
        (s.1, decide (SupAction.exitLoop ∈ s.2))

/-! ## Upload helpers (maxclient/files.go) -/

/-- `DefaultTimeout` (30 s), in seconds, used as the file upload waiter
timeout. -/
def DefaultTimeoutSeconds : Nat := 30

/-- The video upload waiter timeout literal (120 s), in seconds. -/
def videoTimeoutSeconds : Nat := 120

/-- Attachment fields returned by the upload helpers (zero values for the
fields a kind does not set). -/
structure Attachment where
  type : String
  photoToken : String := ""
  fileID : Int := 0
  videoID : Int := 0
  name : String := ""
  size : Int := 0
  token : String := ""
deriving DecidableEq

/-- Environment of one upload-helper call: the upload-slot request's
response payload (`none` models a request error), whether the HTTP POST
of the bytes transports and returns status 200, the token decoded from
the photo upload's HTTP body (`""` when absent), and whether the
completion notification reaches the waiter before its timeout. -/
structure UploadEnv where
  slotResp : Option JObj
  httpOk : Bool
  photoBodyToken : String
  notified : Bool

/-- Steps an upload helper takes, in order. -/
inductive UploadAction where
  | requestSlot : Int → UploadAction
  | registerWaiter : Int → UploadAction
  | httpPost : UploadAction
  | waitForNotif : Nat → UploadAction
  | unregisterWaiter : Int → UploadAction
deriving DecidableEq

/-- Embedding of `UploadPhoto(data, filename)`: request a slot via
`OpPhotoUpload`, read the `url` string, POST the bytes as multipart, and
take the photo token from the first photo of the HTTP response body — no
upload-waiter is registered and nothing blocks on a notification. -/
def UploadPhoto (env : UploadEnv) : List UploadAction × Option Attachment :=
  match env.slotResp with
  | none => ([UploadAction.requestSlot OpPhotoUpload], none)
  | some payload =>
      let url := (jGetStr payload "url").getD ""
      if url = "" then ([UploadAction.requestSlot OpPhotoUpload], none)
      else if env.httpOk = false then
        ([UploadAction.requestSlot OpPhotoUpload, UploadAction.httpPost], none)
      else if env.photoBodyToken = "" then
        ([UploadAction.requestSlot OpPhotoUpload, UploadAction.httpPost], none)
      else
        ([UploadAction.requestSlot OpPhotoUpload, UploadAction.httpPost],
         some { type := "PHOTO", photoToken := env.photoBodyToken })

/-- Embedding of `UploadFile(data, filename)`: request a slot via
`OpFileUpload`, read `info[0].url` and `info[0].fileId`, register an
upload-waiter keyed by the file id, POST the bytes, block on the waiter
up to `DefaultTimeout` (30 s), and return the FILE attachment whether or
not the notification arrived; the deferred unregister always runs. -/
def UploadFile (env : UploadEnv) (filename : String) (dataLen : Int) :
    List UploadAction × Option Attachment :=
  match env.slotResp with
  | none => ([UploadAction.requestSlot OpFileUpload], none)
  | some payload =>
      match jGetArr payload "info" with
      | none => ([UploadAction.requestSlot OpFileUpload], none)
      | some info =>
          match info with
          | [] => ([UploadAction.requestSlot OpFileUpload], none)
          | first :: _ =>
              match first with
              | JValue.jobj uploadInfo =>
                  let url := (jGetStr uploadInfo "url").getD ""
                  let fileID := (jGetNum uploadInfo "fileId").getD 0
                  if url = "" ∨ fileID = 0 then
                    ([UploadAction.requestSlot OpFileUpload], none)
                  else if env.httpOk = false then
                    ([UploadAction.requestSlot OpFileUpload,
                      UploadAction.registerWaiter fileID, UploadAction.httpPost,
                      UploadAction.unregisterWaiter fileID], none)
                  else
                    ([UploadAction.requestSlot OpFileUpload,
                      UploadAction.registerWaiter fileID, UploadAction.httpPost,
                      UploadAction.waitForNotif DefaultTimeoutSeconds,
                      UploadAction.unregisterWaiter fileID],
                     some { type := "FILE", fileID := fileID, name := filename,
                            size := dataLen })
              | _ => ([UploadAction.requestSlot OpFileUpload], none)

/-- Embedding of `UploadVideo(data, filename)`: as `UploadFile` but via
`OpVideoUpload`, keyed by `info[0].videoId`, carrying `info[0].token`,
and blocking up to 120 s. -/
def UploadVideo (env : UploadEnv) : List UploadAction × Option Attachment :=
  match env.slotResp with
  | none => ([UploadAction.requestSlot OpVideoUpload], none)
  | some payload =>
      match jGetArr payload "info" with
      | none => ([UploadAction.requestSlot OpVideoUpload], none)
      | some info =>
          match info with
          | [] => ([UploadAction.requestSlot OpVideoUpload], none)
          | first :: _ =>
              match first with
              | JValue.jobj uploadInfo =>
                  let url := (jGetStr uploadInfo "url").getD ""
                  let videoID := (jGetNum uploadInfo "videoId").getD 0
                  let token := (jGetStr uploadInfo "token").getD ""
                  if url = "" ∨ videoID = 0 then
                    ([UploadAction.requestSlot OpVideoUpload], none)
                  else if env.httpOk = false then
                    ([UploadAction.requestSlot OpVideoUpload,
                      UploadAction.registerWaiter videoID, UploadAction.httpPost,
                      UploadAction.unregisterWaiter videoID], none)
                  else
                    ([UploadAction.requestSlot OpVideoUpload,
                      UploadAction.registerWaiter videoID, UploadAction.httpPost,
                      UploadAction.waitForNotif videoTimeoutSeconds,
                      UploadAction.unregisterWaiter videoID],
                     some { type := "VIDEO", videoID := videoID, token := token })
              | _ => ([UploadAction.requestSlot OpVideoUpload], none)

/-- Whether an upload action trace touches the upload-waiter machinery —
the registration or blocking-wait step the claim asserts for all three
asset kinds. -/
def usesUploadWaiter (actions : List UploadAction) : Bool :=
  actions.any (fun a =>
    match a with
    | UploadAction.registerWaiter _ => true
    | UploadAction.waitForNotif _ => true
    | _ => false)

/-- A photo upload environment in which every step succeeds but no
completion notification ever arrives. -/
def photoOkEnv : UploadEnv :=
  { slotResp := some [("url", JValue.jstr "https://upload.example")],
    httpOk := true, photoBodyToken := "PTOK", notified := false }

/-- The file-upload slot payload `{info: [{url, fileId}]}`. -/
def fileSlotPayload (url : String) (fid : Int) : JObj :=
  [("info", JValue.jarr [JValue.jobj
    [("url", JValue.jstr url), ("fileId", JValue.jnum fid)]])]

/-- The video-upload slot payload `{info: [{url, videoId, token}]}`. -/
def videoSlotPayload (url : String) (vid : Int) (token : String) : JObj :=
  [("info", JValue.jarr [JValue.jobj
    [("url", JValue.jstr url), ("videoId", JValue.jnum vid),
     ("token", JValue.jstr token)]])]

/-! ## Message history persistence (event_handler.go handleMessageEvent,
trimMessageHistory) -/

/-- Model of Go `strconv.Atoi` as used for the cached history limit: the
parsed integer, or 0 when the string is not a plain signed decimal (Go
discards the error and keeps the zero-valued variable). -/
def atoiDigitsAux : List Char → Nat → Option Nat
  | [], acc => some acc
  | c :: rest, acc =>
      if c.isDigit then atoiDigitsAux rest (acc * 10 + (c.toNat - '0'.toNat))
      else none

/-- Go `strconv.Atoi(s)` with the error collapsed to 0. -/
def atoiOrZero (s : String) : Int :=
  match s.toList with
  | [] => 0
  | '-' :: rest =>
      match rest with
      | [] => 0
      | _ =>
          match atoiDigitsAux rest 0 with
          | some n => -(n : Int)
          | none => 0
  | '+' :: rest =>
      match rest with
      | [] => 0
      | _ =>
          match atoiDigitsAux rest 0 with
          | some n => (n : Int)
          | none => 0
  | cs =>
      match atoiDigitsAux cs 0 with
      | some n => (n : Int)
      | none => 0

/-- Message fields the history path of `handleMessageEvent` uses. -/
structure Msg where
  id : String
  chatID : Int
  sender : Int
  text : String
  mtype : String
deriving DecidableEq

/-- History-relevant environment of one `handleMessageEvent` call: the
parsed message (`none`: parse failed or nil message), whether the
identity cache has the tenant, the cached `History` column value, and
whether the history INSERT succeeds. -/
structure MsgEventEnv where
  message : Option Msg
  cacheForTenant : Bool
  historyValue : String
  saveOk : Bool
deriving DecidableEq

/-- History-store operations issued by the dispatcher. -/
inductive HistAction where
  | saveMessage : HistAction
  | trimHistory : Int → HistAction
deriving DecidableEq

/-- Embedding of the persistence tail of `handleMessageEvent`: the
history limit is the cached `History` value (0 on a cache miss or a
non-numeric value); the message is saved only when the limit is positive
AND the text is non-empty, and the trim runs only after a successful
save. -/
def handleMessageEventHistory (env : MsgEventEnv) : List HistAction :=
  match env.message with
  | none => []
  | some msg =>
      let historyLimit : Int :=
        if env.cacheForTenant then atoiOrZero env.historyValue else 0
      if 0 < historyLimit ∧ msg.text ≠ "" then
        if env.saveOk then
          [HistAction.saveMessage, HistAction.trimHistory historyLimit]
        else [HistAction.saveMessage]
      else []

/-- One row of the `message_history` table (the columns the trim query
touches, with `id` the primary key). -/
structure HistoryRow where
  id : Nat
  userId : String
  chatId : String
  timestamp : Int
deriving DecidableEq

/-- Whether a row belongs to the tenant and chat being trimmed. -/
def rowMatches (userId chatId : String) (r : HistoryRow) : Bool :=
  r.userId == userId && r.chatId == chatId

/-- The `ORDER BY timestamp DESC` comparator of the trim subquery. -/
def tsDesc (a b : HistoryRow) : Bool :=
  decide (b.timestamp ≤ a.timestamp)

/-- Embedding of `trimMessageHistory(userID, chatID, limit)`: delete the
rows of that tenant and chat whose position in the timestamp-descending
order is at or beyond `limit` (the SQL `ORDER BY timestamp DESC OFFSET
limit` subquery), leaving every other row in place. -/
def trimMessageHistory (table : List HistoryRow) (userId chatId : String)
    (limit : Nat) : List HistoryRow :=
  let matching := table.filter (rowMatches userId chatId)
  let sorted := matching.mergeSort tsDesc
  let doomed := (sorted.drop limit).map (fun r => r.id)
  table.filter (fun r => !(doomed.contains r.id))

/-- A concrete message event with empty text on a tenant whose cached
history limit is 5. -/
def emptyTextMsgEnv : MsgEventEnv :=
  { message := some { id := "m1", chatID := 10, sender := 20, text := "",
                      mtype := "TEXT" },
    cacheForTenant := true, historyValue := "5", saveOk := true }

/-! ## Dialog-id derivation (maxclient GetDialogID)

Go int64 values are modelled by their 64-bit pattern as a natural number
below `2 ^ 64`; Go `^` on them is bitwise xor of the patterns. -/

/-- Embedding of `GetDialogID(userID1, userID2 int64) int64`, which
returns `userID1 ^ userID2` (bitwise xor). -/
def GetDialogID (userID1 userID2 : Nat) : Nat :=
  Nat.xor userID1 userID2

end MaxApi

/-! ## THEOREMS -/

namespace MaxApi

/-- Abbreviation used by the seq theorems: counter values after iterated
calls equal the two's-complement reduction of the call index. -/
theorem seqAfterCalls_eq (k : Nat) : seqAfterCalls k = wrapInt32 k := by
  induction k with
  | zero => simp [seqAfterCalls, wrapInt32]
  | succ n ih =>
      show (nextSeq (seqAfterCalls n)).1 = wrapInt32 (n + 1)
      rw [ih]
      show wrapInt32 (wrapInt32 n + 1) = wrapInt32 ((n : Int) + 1)
      unfold wrapInt32
      omega

/-- C3 counterexample: the `int32` seq counter is not strictly monotone
and reuses values within one transport lifetime — call `2^31` returns a
value below call `2^31 - 1`, and call `2^32 + 1` returns the same seq as
call 1. -/
theorem nextSeq_wraps_counterexample :
    seqAfterCalls (2 ^ 31) < seqAfterCalls (2 ^ 31 - 1) ∧
    seqAfterCalls (2 ^ 32 + 1) = seqAfterCalls 1 ∧
    (2 ^ 32 + 1 : Nat) ≠ 1 := by
  simp only [seqAfterCalls_eq]
  unfold wrapInt32
  norm_num

/-- C3 amended: seq values start at 1 and never collide among the first
`2^32` calls of one transport lifetime, and the counter is strictly
increasing for the first `2^31 - 1` calls; beyond those windows the
`int32` counter wraps. -/
theorem nextSeq_distinct_window (i j : Nat) (h1 : 1 ≤ i) (hij : i < j) :
    (j ≤ 2 ^ 32 → seqAfterCalls i ≠ seqAfterCalls j) ∧
    (j ≤ 2 ^ 31 - 1 → seqAfterCalls i < seqAfterCalls j) ∧
    seqAfterCalls 1 = 1 := by
  refine ⟨?_, ?_, ?_⟩
  · intro hj
    rw [seqAfterCalls_eq i, seqAfterCalls_eq j]
    unfold wrapInt32
    have h32 : (2 : Nat) ^ 32 = 4294967296 := by norm_num
    rw [h32] at hj
    omega
  · intro hj
    rw [seqAfterCalls_eq i, seqAfterCalls_eq j]
    unfold wrapInt32
    have h31 : (2 : Nat) ^ 31 - 1 = 2147483647 := by norm_num
    rw [h31] at hj
    omega
  · rw [seqAfterCalls_eq 1]
    unfold wrapInt32
    norm_num

/-- Witness for C3 amended at calls 1 and 2: seq 1 differs from seq 2 and
is below it. -/
theorem nextSeq_distinct_window_witness :
    seqAfterCalls 1 ≠ seqAfterCalls 2 ∧ seqAfterCalls 1 < seqAfterCalls 2 :=
  ⟨(nextSeq_distinct_window 1 2 (by norm_num) (by norm_num)).1 (by norm_num),
   (nextSeq_distinct_window 1 2 (by norm_num) (by norm_num)).2.1 (by norm_num)⟩

/-- C4: the classifier is a pure function of (opcode, payload):
`NOTIF_ATTACH` is routed to the upload-waiter path, a `NOTIF_MESSAGE`
notification is dispatched as `MessageEdit`/`MessageDelete`/`Message`
according to the message status field, and each remaining notification
opcode maps to its fixed event kind. -/
theorem handleNotification_dispatch_table (payload : JObj) :
    handleNotification OpNotifAttach payload = NotifRoute.uploadWaiterPath ∧
    handleNotification OpNotifMessage payload = NotifRoute.dispatched
      (if messageStatusField payload = "EDITED" then "MessageEdit"
       else if messageStatusField payload = "REMOVED" then "MessageDelete"
       else "Message") ∧
    handleNotification OpNotifMark payload = NotifRoute.dispatched "ReadReceipt" ∧
    handleNotification OpNotifChat payload = NotifRoute.dispatched "ChatUpdate" ∧
    handleNotification OpNotifTyping payload = NotifRoute.dispatched "Typing" ∧
    handleNotification OpNotifMsgReactionsChanged payload =
      NotifRoute.dispatched "ReactionChange" ∧
    handleNotification OpNotifContact payload = NotifRoute.dispatched "ContactUpdate" ∧
    handleNotification OpNotifPresence payload = NotifRoute.dispatched "PresenceUpdate" ∧
    handleNotification OpReconnect payload = NotifRoute.dispatched "Disconnected" ∧
    handleNotification OpLogout payload = NotifRoute.dispatched "LoggedOut" := by
  refine ⟨rfl, ?_, rfl, rfl, rfl, rfl, rfl, rfl, rfl, rfl⟩
  show NotifRoute.dispatched (determineMessageEventType payload) = _
  unfold determineMessageEventType messageStatusField MessageStatusEdited
    MessageStatusRemoved
  rfl

end MaxApi

namespace MaxApi

/-- C9: for all 64-bit user ids `a` and `b`, `GetDialogID` is the
bitwise xor of the two ids, hence commutative, xor-ing its result with
the first id recovers the second id, and the result is again a 64-bit
value. -/
theorem getDialogID_comm_cancel (a b : Nat) (ha : a < 2 ^ 64) (hb : b < 2 ^ 64) :
    GetDialogID a b = GetDialogID b a ∧
    Nat.xor (GetDialogID a b) a = b ∧
    GetDialogID a b < 2 ^ 64 := by
  refine ⟨Nat.xor_comm a b, ?_, ?_⟩
  · show (a ^^^ b) ^^^ a = b
    rw [Nat.xor_comm a b]
    exact Nat.xor_cancel_right a b
  · exact Nat.xor_lt_two_pow ha hb

/-- Witness for C9 at the concrete ids 21 and 12: both are 64-bit values
and the theorem's conclusions evaluate there. -/
theorem getDialogID_comm_cancel_witness :
    GetDialogID 21 12 = GetDialogID 12 21 ∧
    Nat.xor (GetDialogID 21 12) 21 = 12 ∧
    GetDialogID 21 12 < 2 ^ 64 :=
  getDialogID_comm_cancel 21 12 (by norm_num) (by norm_num)

/-- C1 counterexample: a call that passes the connectivity check but whose
transport write fails returns the raw write error — an outcome outside
the claim's list {response payload, NOT_CONNECTED, TIMEOUT,
PROTOCOL_ERROR}. -/
theorem sendAndWait_write_error_counterexample :
    sendAndWaitWithTimeout writeFailEnv = ReqOutcome.writeFailed "broken pipe" ∧
    claimedRequestOutcome (sendAndWaitWithTimeout writeFailEnv) = false :=
  ⟨rfl, rfl⟩

/-- C1 amended: every returning call yields exactly one of the response
payload, NOT_CONNECTED (connected=false at entry, nil connection object,
drained slot, or cancelled context), TIMEOUT, PROTOCOL_ERROR (payload
carries a non-empty `error` field, surfaced), a JSON-marshal error, or
the raw transport write error; and the classification follows the call
environment as stated. -/
theorem sendAndWait_outcomes (env : ReqEnv) :
    (claimedRequestOutcome (sendAndWaitWithTimeout env) = true ∨
      sendAndWaitWithTimeout env = ReqOutcome.marshalFailed ∨
      ∃ e, sendAndWaitWithTimeout env = ReqOutcome.writeFailed e) ∧
    (env.connectedAtCall = false →
      sendAndWaitWithTimeout env = ReqOutcome.notConnected) ∧
    (requestReachesWait env → env.wait = WaitRes.timedOut →
      sendAndWaitWithTimeout env = ReqOutcome.timeout) ∧
    (requestReachesWait env → env.wait = WaitRes.ctxCancelled →
      sendAndWaitWithTimeout env = ReqOutcome.notConnected) ∧
    (requestReachesWait env → env.wait = WaitRes.gotResp none →
      sendAndWaitWithTimeout env = ReqOutcome.notConnected) ∧
    (∀ r e, requestReachesWait env → env.wait = WaitRes.gotResp (some r) →
      ParseError r.payload = some e →
      sendAndWaitWithTimeout env = ReqOutcome.protocolError r.payload e) ∧
    (∀ r, requestReachesWait env → env.wait = WaitRes.gotResp (some r) →
      ParseError r.payload = none →
      sendAndWaitWithTimeout env = ReqOutcome.ok r.payload) := by
  refine ⟨?_, ?_, ?_, ?_, ?_, ?_, ?_⟩
  · rcases env with ⟨c, pm, mm, cp, we, w⟩
    unfold sendAndWaitWithTimeout
    cases c
    · left; rfl
    · cases pm
      · right; left; rfl
      · cases mm
        · right; left; rfl
        · cases cp
          · left; rfl
          · rcases we with _ | e
            · rcases w with (_ | r) | _ | _
              · left; rfl
              · rcases h : ParseError r.payload with _ | e <;>
                  simp [h, claimedRequestOutcome]
              · left; rfl
              · left; rfl
            · right; right; exact ⟨e, rfl⟩
  · intro h
    unfold sendAndWaitWithTimeout
    rw [h]
    rfl
  · rintro ⟨hc, hp, hm, hcp, hw⟩ hwait
    unfold sendAndWaitWithTimeout
    rw [hc, hp, hm, hcp, hw, hwait]
    rfl
  · rintro ⟨hc, hp, hm, hcp, hw⟩ hwait
    unfold sendAndWaitWithTimeout
    rw [hc, hp, hm, hcp, hw, hwait]
    rfl
  · rintro ⟨hc, hp, hm, hcp, hw⟩ hwait
    unfold sendAndWaitWithTimeout
    rw [hc, hp, hm, hcp, hw, hwait]
    rfl
  · rintro r e ⟨hc, hp, hm, hcp, hw⟩ hwait hperr
    unfold sendAndWaitWithTimeout
    rw [hc, hp, hm, hcp, hw, hwait]
    simp [hperr]
  · rintro r ⟨hc, hp, hm, hcp, hw⟩ hwait hperr
    unfold sendAndWaitWithTimeout
    rw [hc, hp, hm, hcp, hw, hwait]
    simp [hperr]

/-- Witness for C1 amended: a call on a disconnected client resolves to
NOT_CONNECTED. -/
theorem sendAndWait_outcomes_witness :
    sendAndWaitWithTimeout
      { connectedAtCall := false, payloadMarshalOk := true, msgMarshalOk := true,
        connPresent := true, writeErr := none, wait := WaitRes.timedOut } =
      ReqOutcome.notConnected :=
  (sendAndWait_outcomes _).2.1 rfl

/-- C2: after `Close` the cancellation token is cancelled and the
connected flag cleared; when a connection object existed, every pending
slot (any number of them) is drained from the table; and every waiter
blocked in a request has a receivable branch, each of which makes the
request return NOT_CONNECTED — no waiter hangs or sees another outcome. -/
theorem close_completes_pending (s : ClientState) (seq : Int)
    (hseq : seq ∈ s.pending) :
    (Close s).1.ctxCancelled = true ∧
    (Close s).1.isConnected = false ∧
    (s.hasConn = true → (Close s).1.pending = []) ∧
    (s.hasConn = true → seq ∉ (Close s).1.pending) ∧
    (∃ b, waiterBranchReady (Close s).2 b = true) ∧
    (∀ b, waiterBranchReady (Close s).2 b = true →
      waiterObserve b = ReqOutcome.notConnected) := by
  unfold Close
  rcases s with ⟨ctx, ic, hc, p⟩
  cases hc
  · refine ⟨rfl, rfl, ?_, ?_, ⟨WaiterBranch.ctxDone, rfl⟩, ?_⟩
    · intro h; exact absurd h (by simp)
    · intro h; exact absurd h (by simp)
    · intro b _; cases b <;> rfl
  · refine ⟨rfl, rfl, fun _ => rfl, ?_, ⟨WaiterBranch.ctxDone, rfl⟩, ?_⟩
    · intro _; simp
    · intro b _; cases b <;> rfl

/-- Witness for C2 with two outstanding requests: seq 7 is pending before
close, the table drains, and both receivable branches yield
NOT_CONNECTED. -/
theorem close_completes_pending_witness :
    (Close ⟨false, true, true, [7, 8]⟩).1.pending = [] ∧
    waiterObserve WaiterBranch.ctxDone = ReqOutcome.notConnected := by
  have h := close_completes_pending ⟨false, true, true, [7, 8]⟩ 7 (by simp)
  exact ⟨h.2.2.1 rfl, h.2.2.2.2.2 WaiterBranch.ctxDone rfl⟩

/-- C10: when the connected flag is false at the call, `Logout` returns
nil immediately, performs no transport action (no LOGOUT send) and leaves
the whole state — `AuthToken`, `Me`, `MaxUserID` — unchanged; the
credential and cached identity are cleared exactly when the client is
connected at the call, in which case LOGOUT is sent and the client
closed. -/
theorem logout_frame (s : AuthState) (closeNil : Bool) :
    (s.conn.isConnected = false → Logout s closeNil = (s, [], true)) ∧
    (s.conn.isConnected = true →
      (Logout s closeNil).1.authToken = "" ∧
      (Logout s closeNil).1.hasMe = false ∧
      (Logout s closeNil).1.maxUserID = 0 ∧
      (Logout s closeNil).2.1 =
        [LogoutAction.sendLogout, LogoutAction.closeClient]) := by
  constructor
  · intro h
    unfold Logout
    rw [h]
    rfl
  · intro h
    unfold Logout
    rw [h]
    exact ⟨rfl, rfl, rfl, rfl⟩

/-- Witness for C10: a disconnected client with a token keeps its state
and gets nil back; a connected client has its token cleared. -/
theorem logout_frame_witness :
    Logout ⟨⟨false, false, false, []⟩, "tok", true, 5⟩ true =
      (⟨⟨false, false, false, []⟩, "tok", true, 5⟩, [], true) ∧
    (Logout ⟨⟨false, true, true, []⟩, "tok", true, 5⟩ true).1.authToken = "" :=
  ⟨(logout_frame ⟨⟨false, false, false, []⟩, "tok", true, 5⟩ true).1 rfl,
   ((logout_frame ⟨⟨false, true, true, []⟩, "tok", true, 5⟩ true).2 rfl).1⟩

/-- Helper: the subscription check fails exactly when neither the event
type nor `"All"` is in the list. -/
theorem checkIfSubscribedToEvent_eq_false (subs : List String) (etype u : String) :
    checkIfSubscribedToEvent subs etype u = false ↔
      Find subs etype = false ∧ Find subs "All" = false := by
  unfold checkIfSubscribedToEvent
  cases h1 : Find subs etype <;> cases h2 : Find subs "All" <;> simp

/-- C5 counterexample: with the tenant subscribed to `Message` in the
catalog but the cache empty and the catalog read failing, a `Message`
event is dropped even though its kind is in the tenant's subscription
set — the dropped-iff-unsubscribed biconditional fails. -/
theorem sendEventWithWebHook_drop_counterexample :
    sendEventWithWebHook dbFailDispatchEnv = DispatchResult.dropped ∧
    Find (tenantSubscriptions dbFailDispatchEnv.info) "Message" = true := by
  constructor
  · rfl
  · decide

/-- C5 amended: when the subscription set resolves (cache hit, or catalog
read succeeds), the postmap type is a string and serialization succeeds,
an event is dropped iff its kind is not in the resolved set and the set
does not contain `"All"`; when either membership holds it is serialized
and delivered (user-webhook POST iff the URL is non-empty, plus the
global fanout). An event is also dropped whenever the subscription set
cannot be resolved. -/
theorem sendEventWithWebHook_filter (env : DispatchEnv) :
    (∀ subs etype, updateAndGetUserSubscriptions env.info = some subs →
      env.postmapType = some etype → env.marshalOk = true →
      (sendEventWithWebHook env = DispatchResult.dropped ↔
        Find subs etype = false ∧ Find subs "All" = false)) ∧
    (∀ subs etype, updateAndGetUserSubscriptions env.info = some subs →
      env.postmapType = some etype → env.marshalOk = true →
      (Find subs etype = true ∨ Find subs "All" = true) →
      sendEventWithWebHook env = DispatchResult.delivered (env.webhookUrl != "")) ∧
    (updateAndGetUserSubscriptions env.info = none →
      sendEventWithWebHook env = DispatchResult.dropped) := by
  refine ⟨?_, ?_, ?_⟩
  · intro subs etype hsubs htype hm
    unfold sendEventWithWebHook
    rw [hsubs, htype, hm]
    cases hf1 : Find subs etype <;> cases hf2 : Find subs "All" <;>
      simp [checkIfSubscribedToEvent, hf1, hf2]
  · intro subs etype hsubs htype hm hmem
    unfold sendEventWithWebHook
    rw [hsubs, htype, hm]
    rcases hmem with h | h <;> simp [checkIfSubscribedToEvent, h]
  · intro h
    unfold sendEventWithWebHook
    rw [h]

/-- Witness for C5 amended: a cached tenant subscribed to `Message`
receives a `Message` event at its webhook; the drop-iff characterization
holds there. -/
theorem sendEventWithWebHook_filter_witness :
    sendEventWithWebHook
      { info := { cached := true, cachedEvents := "Message", dbEvents := "",
                  dbOk := true },
        webhookUrl := "https://hook.example", postmapType := some "Message",
        marshalOk := true } = DispatchResult.delivered true :=
  (sendEventWithWebHook_filter _).2.1 (parseSubscribedEvents "Message") "Message"
    rfl rfl rfl (Or.inl (by decide))

/-- Helper: before the cap is exceeded, a disconnected tick never emits
`exitLoop`. -/
theorem startClientStep_no_exit (attempts : Nat) (syncOk : Bool)
    (h : attempts < maxReconnectAttempts) :
    SupAction.exitLoop ∉ (startClientStep attempts (TickInput.disconnectedTick syncOk)).2 := by
  have ha : ¬ maxReconnectAttempts < attempts + 1 := by
    unfold maxReconnectAttempts at *
    omega
  simp only [startClientStep, if_neg ha]
  by_cases h1 : attempts + 1 = 1 ∨ (attempts + 1) % 10 = 0 <;>
    cases syncOk <;> simp [h1]

/-- Helper: the reduced form of a below-cap failed-reconnect tick. -/
theorem startClientStep_retry_eq (m : Nat) (h : ¬ maxReconnectAttempts < m + 1) :
    startClientStep m (TickInput.disconnectedTick false) =
      (m + 1,
        (if m + 1 = 1 ∨ (m + 1) % 10 = 0 then
          [SupAction.emitReconnecting (m + 1) maxReconnectAttempts]
        else []) ++ [SupAction.sleepRetryDelay, SupAction.attemptReconnect]) := by
  simp only [startClientStep, if_neg h]
  simp

/-- Helper: a below-cap retry action list never contains `exitLoop`. -/
theorem exitLoop_not_in_retry (m : Nat) :
    SupAction.exitLoop ∉
      ((if m + 1 = 1 ∨ (m + 1) % 10 = 0 then
          [SupAction.emitReconnecting (m + 1) maxReconnectAttempts]
        else []) ++ [SupAction.sleepRetryDelay, SupAction.attemptReconnect]) := by
  by_cases h1 : m + 1 = 1 ∨ (m + 1) % 10 = 0 <;> simp [h1]

/-- C6: the supervise loop never gives up before the 120-attempt cap; each
disconnected tick increments the counter; on the tick where the counter
exceeds 120 (the 121st consecutive failure) it cleans up the registry,
emits the `Disconnected{max_reconnect_attempts}` event, persists
connected=0 and exits; a successful reconnect resets the counter to 0;
and from a fresh loop 121 consecutive failed ticks — never fewer — reach
the exit. -/
theorem startClient_reconnect_cap (attempts k : Nat) (syncOk : Bool) :
    (attempts < maxReconnectAttempts →
      SupAction.exitLoop ∉
        (startClientStep attempts (TickInput.disconnectedTick syncOk)).2) ∧
    (startClientStep attempts (TickInput.disconnectedTick false)).1 = attempts + 1 ∧
    (attempts + 1 ≤ maxReconnectAttempts →
      (startClientStep attempts (TickInput.disconnectedTick true)).1 = 0) ∧
    startClientStep maxReconnectAttempts (TickInput.disconnectedTick syncOk) =
      (121, [SupAction.cleanupRegistry, SupAction.emitDisconnectedMaxAttempts,
             SupAction.persistConnected 0, SupAction.exitLoop]) ∧
    (k ≤ maxReconnectAttempts → superviseFailedTicks k = (k, false)) ∧
    superviseFailedTicks (maxReconnectAttempts + 1) = (121, true) := by
  have hrun : ∀ n, n ≤ maxReconnectAttempts → superviseFailedTicks n = (n, false) := by
    intro n
    induction n with
    | zero => intro _; rfl
    | succ m ih =>
        intro hm
        have hm' : m ≤ maxReconnectAttempts := Nat.le_of_succ_le hm
        have hnotover : ¬ maxReconnectAttempts < m + 1 := by
          unfold maxReconnectAttempts at *
          omega
        show superviseFailedTicks (m + 1) = (m + 1, false)
        rw [superviseFailedTicks, ih hm', startClientStep_retry_eq m hnotover]
        simp only [decide_eq_false (exitLoop_not_in_retry m)]
        rfl
  refine ⟨startClientStep_no_exit attempts syncOk, ?_, ?_, ?_, hrun k, ?_⟩
  · by_cases hover : maxReconnectAttempts < attempts + 1
    · simp only [startClientStep, if_pos hover]
    · rw [startClientStep_retry_eq attempts hover]
  · intro hle
    have hnotover : ¬ maxReconnectAttempts < attempts + 1 := by omega
    simp only [startClientStep, if_neg hnotover]
    by_cases h1 : attempts + 1 = 1 ∨ (attempts + 1) % 10 = 0 <;> simp [h1]
  · rfl
  · show superviseFailedTicks (maxReconnectAttempts + 1) = (121, true)
    rw [superviseFailedTicks, hrun maxReconnectAttempts (Nat.le_refl _)]
    rfl

/-- Witness for C6 at attempts 0, tick 1: the first failed tick does not
exit and moves the counter to 1. -/
theorem startClient_reconnect_cap_witness :
    SupAction.exitLoop ∉
      (startClientStep 0 (TickInput.disconnectedTick false)).2 ∧
    superviseFailedTicks 1 = (1, false) :=
  ⟨(startClient_reconnect_cap 0 1 false).1 (by norm_num [maxReconnectAttempts]),
   (startClient_reconnect_cap 0 1 false).2.2.2.2.1
     (by norm_num [maxReconnectAttempts])⟩

/-- C7 counterexample: a fully successful photo upload — slot granted,
POST accepted, token in the HTTP body — returns its attachment without
ever registering an upload-waiter or blocking on one, so the photo kind
does not follow the claimed waiter template. -/
theorem uploadPhoto_no_waiter_counterexample :
    (UploadPhoto photoOkEnv).2 =
      some { type := "PHOTO", photoToken := "PTOK" } ∧
    usesUploadWaiter (UploadPhoto photoOkEnv).1 = false :=
  ⟨rfl, rfl⟩

/-- C7 amended: the file and video kinds follow the waiter template —
request a slot, register an upload-waiter keyed by the server-assigned
id, POST the bytes, block up to the kind-specific timeout (30 s file,
120 s video), and return the best-effort attachment whether or not the
notification arrived; the photo kind requests a slot and POSTs but takes
its token synchronously from the HTTP response and never touches the
waiter machinery. -/
theorem upload_waiter_template (url token filename : String)
    (fid vid dataLen : Int) (notified : Bool)
    (hurl : url ≠ "") (hfid : fid ≠ 0) (hvid : vid ≠ 0) :
    UploadFile
      { slotResp := some (fileSlotPayload url fid), httpOk := true,
        photoBodyToken := "", notified := notified } filename dataLen =
      ([UploadAction.requestSlot OpFileUpload, UploadAction.registerWaiter fid,
        UploadAction.httpPost,
        UploadAction.waitForNotif DefaultTimeoutSeconds,
        UploadAction.unregisterWaiter fid],
       some { type := "FILE", fileID := fid, name := filename,
              size := dataLen }) ∧
    UploadVideo
      { slotResp := some (videoSlotPayload url vid token), httpOk := true,
        photoBodyToken := "", notified := notified } =
      ([UploadAction.requestSlot OpVideoUpload, UploadAction.registerWaiter vid,
        UploadAction.httpPost, UploadAction.waitForNotif videoTimeoutSeconds,
        UploadAction.unregisterWaiter vid],
       some { type := "VIDEO", videoID := vid, token := token }) ∧
    (∀ env, usesUploadWaiter (UploadPhoto env).1 = false) := by
  refine ⟨?_, ?_, ?_⟩
  · simp [UploadFile, fileSlotPayload, jGetArr, jGetStr, jGetNum, jLookup,
      hurl, hfid]
  · simp [UploadVideo, videoSlotPayload, jGetArr, jGetStr, jGetNum, jLookup,
      hurl, hvid]
  · intro env
    rcases env with ⟨slot, httpOk, tok, notif⟩
    rcases slot with _ | payload
    · rfl
    · by_cases hu : (jGetStr payload "url").getD "" = "" <;>
        cases httpOk <;>
        by_cases ht : tok = "" <;>
        simp [UploadPhoto, usesUploadWaiter, hu, ht]

/-- Witness for C7 amended at concrete inputs: a timed-out file upload
still returns the FILE attachment, and the trace blocked 30 s on the
waiter. -/
theorem upload_waiter_template_witness :
    UploadFile
      { slotResp := some (fileSlotPayload "https://up.example" 42),
        httpOk := true, photoBodyToken := "", notified := false } "a.pdf" 3 =
      ([UploadAction.requestSlot OpFileUpload, UploadAction.registerWaiter 42,
        UploadAction.httpPost,
        UploadAction.waitForNotif DefaultTimeoutSeconds,
        UploadAction.unregisterWaiter 42],
       some { type := "FILE", fileID := 42, name := "a.pdf", size := 3 }) :=
  (upload_waiter_template "https://up.example" "T" "a.pdf" 42 7 3 false
    (by decide) (by decide) (by decide)).1

/-- Helper: the descending-timestamp comparator is transitive. -/
theorem tsDesc_trans (a b c : HistoryRow) (h1 : tsDesc a b = true)
    (h2 : tsDesc b c = true) : tsDesc a c = true := by
  unfold tsDesc at *
  rw [decide_eq_true_iff] at *
  omega

/-- Helper: the descending-timestamp comparator is total. -/
theorem tsDesc_total (a b : HistoryRow) : (tsDesc a b || tsDesc b a) = true := by
  unfold tsDesc
  rcases le_total a.timestamp b.timestamp with h | h <;> simp [h]

/-- Helper: the sorted matching rows are a permutation of the matching
rows. -/
theorem trim_sorted_perm (table : List HistoryRow) (u c : String) :
    ((table.filter (rowMatches u c)).mergeSort tsDesc).Perm
      (table.filter (rowMatches u c)) :=
  List.mergeSort_perm _ _

/-- Helper: with table ids distinct, the sorted matching rows also have
distinct ids. -/
theorem trim_sorted_ids_nodup (table : List HistoryRow) (u c : String)
    (hnd : (table.map HistoryRow.id).Nodup) :
    (((table.filter (rowMatches u c)).mergeSort tsDesc).map HistoryRow.id).Nodup := by
  have hm : ((table.filter (rowMatches u c)).map HistoryRow.id).Nodup :=
    ((List.filter_sublist table).map HistoryRow.id).nodup hnd
  exact (((trim_sorted_perm table u c).map HistoryRow.id).nodup_iff).mpr hm

/-- Helper: with distinct ids, a table row whose id is doomed is itself
one of the dropped sorted rows. -/
theorem trim_deleted_mem_drop (table : List HistoryRow) (u c : String)
    (limit : Nat) (hnd : (table.map HistoryRow.id).Nodup) (r : HistoryRow)
    (hr : r ∈ table)
    (hid : r.id ∈ ((((table.filter (rowMatches u c)).mergeSort tsDesc).drop
      limit).map HistoryRow.id)) :
    r ∈ ((table.filter (rowMatches u c)).mergeSort tsDesc).drop limit := by
  rcases List.mem_map.mp hid with ⟨d, hd, hdid⟩
  have hdsorted : d ∈ (table.filter (rowMatches u c)).mergeSort tsDesc :=
    (List.drop_sublist _ _).mem hd
  have hdtable : d ∈ table :=
    (List.mem_filter.mp ((trim_sorted_perm table u c).mem_iff.mp hdsorted)).1
  have : d = r := List.inj_on_of_nodup_map hnd hdtable hr hdid
  rw [← this]
  exact hd

/-- Helper: an element absent from a list is not `contains`-found. -/
theorem contains_eq_false_of_not_mem {α : Type} [BEq α] [LawfulBEq α]
    {l : List α} {a : α} (h : a ∉ l) : l.contains a = false := by
  cases hc : l.contains a
  · rfl
  · exact absurd (List.mem_of_elem_eq_true hc) h

/-- Helper: a member of a list is `contains`-found. -/
theorem contains_eq_true_of_mem {α : Type} [BEq α] [LawfulBEq α]
    {l : List α} {a : α} (h : a ∈ l) : l.contains a = true :=
  List.elem_eq_true_of_mem h

/-- Helper: filtering a list with distinct ids by "id not among the ids
of my own drop" keeps exactly the take. -/
theorem filter_not_dropped_ids (sorted : List HistoryRow) (limit : Nat)
    (hnd : (sorted.map HistoryRow.id).Nodup) :
    sorted.filter
      (fun a => !(((sorted.drop limit).map HistoryRow.id).contains a.id)) =
      sorted.take limit := by
  have key : ∀ pre post : List HistoryRow,
      ((pre ++ post).map HistoryRow.id).Nodup →
      (pre ++ post).filter
        (fun a => !((post.map HistoryRow.id).contains a.id)) = pre := by
    intro pre post hnodup
    rw [List.filter_append]
    have hdisj : List.Disjoint (pre.map HistoryRow.id) (post.map HistoryRow.id) := by
      rw [List.map_append] at hnodup
      exact List.disjoint_of_nodup_append hnodup
    have h1 : pre.filter
        (fun a => !((post.map HistoryRow.id).contains a.id)) = pre := by
      apply List.filter_eq_self.mpr
      intro a ha
      have hno : a.id ∉ post.map HistoryRow.id :=
        fun hmem => hdisj (List.mem_map_of_mem _ ha) hmem
      rw [contains_eq_false_of_not_mem hno]
      rfl
    have h2 : post.filter
        (fun a => !((post.map HistoryRow.id).contains a.id)) = [] := by
      apply List.filter_eq_nil_iff.mpr
      intro a ha
      rw [contains_eq_true_of_mem (List.mem_map_of_mem _ ha)]
      simp
    rw [h1, h2, List.append_nil]
  have happ := key (sorted.take limit) (sorted.drop limit)
    (by rw [List.take_append_drop]; exact hnd)
  rw [List.take_append_drop] at happ
  exact happ

/-- Helper (frame): with distinct ids, trimming a tenant+chat pair never
deletes a row of a different tenant or chat. -/
theorem trim_frame (table : List HistoryRow) (u c : String) (limit : Nat)
    (hnd : (table.map HistoryRow.id).Nodup) (r : HistoryRow) (hr : r ∈ table)
    (hmatch : rowMatches u c r = false) :
    r ∈ trimMessageHistory table u c limit := by
  unfold trimMessageHistory
  rw [List.mem_filter]
  refine ⟨hr, ?_⟩
  have hno : r.id ∉
      (((table.filter (rowMatches u c)).mergeSort tsDesc).drop limit).map
        HistoryRow.id := by
    intro hid
    have hrd := trim_deleted_mem_drop table u c limit hnd r hr hid
    have hrs : r ∈ (table.filter (rowMatches u c)).mergeSort tsDesc :=
      (List.drop_sublist _ _).mem hrd
    have hrm :=
      (List.mem_filter.mp ((trim_sorted_perm table u c).mem_iff.mp hrs)).2
    rw [hmatch] at hrm
    cases hrm
  rw [contains_eq_false_of_not_mem hno]
  rfl

/-- Helper (size): with distinct ids, after a trim exactly
`min limit (matching rows)` rows of the tenant+chat pair remain. -/
theorem trim_count (table : List HistoryRow) (u c : String) (limit : Nat)
    (hnd : (table.map HistoryRow.id).Nodup) :
    ((trimMessageHistory table u c limit).filter (rowMatches u c)).length =
      min limit ((table.filter (rowMatches u c)).length) := by
  unfold trimMessageHistory
  rw [List.filter_filter]
  have hcomm : table.filter
      (fun a => rowMatches u c a &&
        !((((table.filter (rowMatches u c)).mergeSort tsDesc).drop limit).map
            HistoryRow.id).contains a.id) =
      (table.filter (rowMatches u c)).filter
        (fun a =>
          !((((table.filter (rowMatches u c)).mergeSort tsDesc).drop limit).map
              HistoryRow.id).contains a.id) := by
    rw [List.filter_filter]
    exact (List.filter_congr (fun a _ => Bool.and_comm _ _)).symm
  rw [hcomm]
  have hperm := (trim_sorted_perm table u c).filter
    (fun a =>
      !((((table.filter (rowMatches u c)).mergeSort tsDesc).drop limit).map
          HistoryRow.id).contains a.id)
  rw [← hperm.length_eq]
  rw [filter_not_dropped_ids _ limit (trim_sorted_ids_nodup table u c hnd)]
  rw [List.length_take]
  rw [(trim_sorted_perm table u c).length_eq]

/-- Helper (order): with distinct ids, every row the trim deletes has a
timestamp at most that of every kept row of the same tenant+chat pair. -/
theorem trim_deleted_le (table : List HistoryRow) (u c : String) (limit : Nat)
    (hnd : (table.map HistoryRow.id).Nodup) (r : HistoryRow) (hr : r ∈ table)
    (hrdel : r ∉ trimMessageHistory table u c limit) (kept : HistoryRow)
    (hkept : kept ∈ trimMessageHistory table u c limit)
    (hkmatch : rowMatches u c kept = true) :
    r.timestamp ≤ kept.timestamp := by
  have hidr : r.id ∈
      (((table.filter (rowMatches u c)).mergeSort tsDesc).drop limit).map
        HistoryRow.id := by
    by_contra hno
    apply hrdel
    unfold trimMessageHistory
    rw [List.mem_filter]
    refine ⟨hr, ?_⟩
    rw [contains_eq_false_of_not_mem hno]
    rfl
  have hrdrop := trim_deleted_mem_drop table u c limit hnd r hr hidr
  have hkmem := List.mem_filter.mp (by
    have := hkept
    unfold trimMessageHistory at this
    exact this)
  have hknodoom : kept.id ∉
      (((table.filter (rowMatches u c)).mergeSort tsDesc).drop limit).map
        HistoryRow.id := by
    intro hmem
    have := hkmem.2
    rw [contains_eq_true_of_mem hmem] at this
    simp at this
  have hks : kept ∈ (table.filter (rowMatches u c)).mergeSort tsDesc :=
    (trim_sorted_perm table u c).mem_iff.mpr
      (List.mem_filter.mpr ⟨hkmem.1, hkmatch⟩)
  have hktake : kept ∈
      ((table.filter (rowMatches u c)).mergeSort tsDesc).take limit := by
    rw [← List.take_append_drop limit
      ((table.filter (rowMatches u c)).mergeSort tsDesc)] at hks
    rcases List.mem_append.mp hks with h | h
    · exact h
    · exact absurd (List.mem_map_of_mem _ h) hknodoom
  have hpair := List.sorted_mergeSort tsDesc_trans tsDesc_total
    (table.filter (rowMatches u c))
  rw [← List.take_append_drop limit
    ((table.filter (rowMatches u c)).mergeSort tsDesc)] at hpair
  have hts := (List.pairwise_append.mp hpair).2.2 kept hktake r hrdrop
  unfold tsDesc at hts
  exact of_decide_eq_true hts

/-- C8 counterexample: a `Message` event with empty text on a tenant with
cached history limit 5 (> 0) triggers no history write at all — the code
additionally requires non-empty message text. -/
theorem history_empty_text_counterexample :
    handleMessageEventHistory emptyTextMsgEnv = [] ∧
    atoiOrZero emptyTextMsgEnv.historyValue = 5 := by
  constructor
  · rfl
  · decide

/-- C8 amended: a `Message` event is persisted (saved, then trimmed to
the limit) exactly on tenants whose cached history limit is positive AND
whose message text is non-empty (with the trim after a successful save);
limit 0, a cache miss, a non-positive parsed limit, or empty text all
disable persistence. The trim itself deletes only rows of that tenant
and chat beyond the limit in timestamp-descending order: other rows
survive, at most `limit` matching rows remain (exactly `limit` when
enough exist), and with distinct row ids every deleted row's timestamp
is at most every kept matching row's timestamp. -/
theorem handleMessageEvent_history (env : MsgEventEnv) (msg : Msg)
    (hmsg : env.message = some msg) :
    (env.cacheForTenant = true → 0 < atoiOrZero env.historyValue →
      msg.text ≠ "" → env.saveOk = true →
      handleMessageEventHistory env =
        [HistAction.saveMessage,
         HistAction.trimHistory (atoiOrZero env.historyValue)]) ∧
    (env.cacheForTenant = false → handleMessageEventHistory env = []) ∧
    (atoiOrZero env.historyValue ≤ 0 → handleMessageEventHistory env = []) ∧
    (msg.text = "" → handleMessageEventHistory env = []) ∧
    (∀ (table : List HistoryRow) (u c : String) (limit : Nat),
      ((table.map HistoryRow.id).Nodup →
        ∀ r ∈ table, rowMatches u c r = false →
          r ∈ trimMessageHistory table u c limit) ∧
      ((table.map HistoryRow.id).Nodup →
        ((trimMessageHistory table u c limit).filter (rowMatches u c)).length =
          min limit ((table.filter (rowMatches u c)).length)) ∧
      ((table.map HistoryRow.id).Nodup →
        ∀ r ∈ table, r ∉ trimMessageHistory table u c limit →
          ∀ kept ∈ trimMessageHistory table u c limit,
            rowMatches u c kept = true → r.timestamp ≤ kept.timestamp)) := by
  refine ⟨?_, ?_, ?_, ?_, ?_⟩
  · intro hc hl ht hs
    simp only [handleMessageEventHistory, hmsg, hc, hs]
    simp [hl, ht]
  · intro hc
    simp [handleMessageEventHistory, hmsg, hc]
  · intro hl
    have hnl : ¬ (0 : Int) < atoiOrZero env.historyValue := not_lt.mpr hl
    cases hc : env.cacheForTenant
    · simp [handleMessageEventHistory, hmsg, hc]
    · simp [handleMessageEventHistory, hmsg, hc, hnl]
  · intro ht
    simp [handleMessageEventHistory, hmsg, ht]
  · intro table u c limit
    exact ⟨fun hnd r hr hm => trim_frame table u c limit hnd r hr hm,
           fun hnd => trim_count table u c limit hnd,
           fun hnd r hr hdel kept hk hkm =>
             trim_deleted_le table u c limit hnd r hr hdel kept hk hkm⟩

/-- Witness for C8 amended: a concrete non-empty-text message on a tenant
with cached limit 3 is saved then trimmed to 3; a cache miss disables
persistence. -/
theorem handleMessageEvent_history_witness :
    handleMessageEventHistory
      { message := some { id := "m2", chatID := 1, sender := 2, text := "hi",
                          mtype := "TEXT" },
        cacheForTenant := true, historyValue := "3", saveOk := true } =
      [HistAction.saveMessage, HistAction.trimHistory 3] ∧
    handleMessageEventHistory
      { message := some { id := "m2", chatID := 1, sender := 2, text := "hi",
                          mtype := "TEXT" },
        cacheForTenant := false, historyValue := "3", saveOk := true } = [] := by
  constructor
  · have h := (handleMessageEvent_history
      { message := some { id := "m2", chatID := 1, sender := 2, text := "hi",
                          mtype := "TEXT" },
        cacheForTenant := true, historyValue := "3", saveOk := true }
      { id := "m2", chatID := 1, sender := 2, text := "hi", mtype := "TEXT" }
      rfl).1 rfl (by decide) (by decide) rfl
    rw [h]
    decide
  · exact (handleMessageEvent_history
      { message := some { id := "m2", chatID := 1, sender := 2, text := "hi",
                          mtype := "TEXT" },
        cacheForTenant := false, historyValue := "3", saveOk := true }
      { id := "m2", chatID := 1, sender := 2, text := "hi", mtype := "TEXT" }
      rfl).2.1 rfl

end MaxApi
